import Mathlib

set_option autoImplicit false

/-
  Verification of the ipapk bundle inspector (src/parser.go, plus the second
  source variant src/unnamed/part_000) against its natural-language spec.

  Shallow embedding conventions:
  * The zip container reader, the androidbinary binary-XML decoder, the
    go-plist decoder, the apk resource/label resolver, the iospng revert
    transform and the png codec are external collaborators (spec section 6).
    A container entry therefore records, next to its name and raw bytes, the
    outcome each external decoder would produce on its bytes; the revert
    transform and the png decoder are passed to the model as function
    arguments, and theorems quantify over them.
  * Go functions that return a (value, error) pair are modelled with
    GoResult, which also has a crash constructor for runtime panics
    (nil-pointer dereference, failed interface type assertion), since the
    dispatcher in src/parser.go can reach both.
  * Strings are Lean strings; Go strings.Contains and the compiled pattern
    reInfoPlist are re-implemented executably over character lists.
-/

namespace Ipapk

/-- Substring test on character lists: does sub occur contiguously in l?
Mirrors Go strings.Contains (an empty sub occurs in every string). -/
def listIsInfixOf (sub : List Char) : List Char → Bool
  | [] => sub.isEmpty
  | c :: t => sub.isPrefixOf (c :: t) || listIsInfixOf sub t

/-- Go strings.Contains(s, sub). -/
def goContains (s sub : String) : Bool :=
  listIsInfixOf sub.toList s.toList

/-- Characters of the literal part before the segment in the pattern
Payload/[^/]+/Info.plist from src/parser.go line 25. -/
def payloadLit : List Char := "Payload/".toList

/-- Characters of the literal part after the segment in the pattern. -/
def infoPlistLit : List Char := "/Info.plist".toList

/-- Does the pattern Payload/[^/]+/Info.plist match starting exactly at l?
The segment is a nonempty run of non-slash characters; because the pattern
requires a slash right after the segment, greedy matching is exact. -/
def reMatchAt (l : List Char) : Bool :=
  payloadLit.isPrefixOf l &&
    (let rest := l.drop payloadLit.length
     let seg := rest.takeWhile (fun c => c ≠ '/')
     !seg.isEmpty && infoPlistLit.isPrefixOf (rest.drop seg.length))

/-- Unanchored search, as Go regexp MatchString does. -/
def reSearch : List Char → Bool
  | [] => reMatchAt []
  | c :: t => reMatchAt (c :: t) || reSearch t

/-- reInfoPlist.MatchString from src/parser.go: the compiled pattern
Payload/[^/]+/Info.plist searched anywhere in the entry name. -/
def reInfoPlistMatch (s : String) : Bool :=
  reSearch s.toList

/-- Last path component (Go os.FileInfo Name() of the opened path). -/
def baseNameChars (l : List Char) : List Char :=
  (l.reverse.takeWhile (fun c => c ≠ '/')).reverse

/-- Go filepath.Ext of a base name: the suffix starting at the final dot,
empty when there is no dot. -/
def extChars (l : List Char) : List Char :=
  let r := l.reverse
  let pre := r.takeWhile (fun c => c ≠ '.')
  if pre.length = r.length then [] else (pre ++ ['.']).reverse

/-- filepath.Ext(stat.Name()) as used in src/parser.go line 125. -/
def goExt (path : String) : String :=
  String.mk (extChars (baseNameChars path.toList))

/-- Errors produced by src/parser.go or recorded at the collaborator
boundary (zip reader, binary-XML decoder, plist decoder, apk resolver). -/
inductive GoError where
  | zipOpenError
  | manifestNotFound
  | plistNotFound
  | iconNotFound
  | unknownPlatform
  | decodeFail (msg : String)
  | other (msg : String)
  deriving DecidableEq, Repr

/-- Outcome of a Go call: a value, a returned error, or a runtime panic. -/
inductive GoResult (α : Type) where
  | ok (a : α)
  | err (e : GoError)
  | crash (msg : String)
  deriving DecidableEq, Repr

/-- A decoded raster image, abstracted to its byte content. -/
structure Image where
  bytes : List Nat
  deriving DecidableEq, Repr

/-- A Go interface value as stored in the decoded plist CFBundleIcons
nested maps: nil, a string, an integer, or a sequence. -/
inductive GoVal where
  | nilV
  | str (s : String)
  | int (n : Int)
  | arr (vs : List GoVal)

/-- uses-sdk attributes of the decoded manifest (src/parser.go lines 53-56). -/
structure SdkVersion where
  Min : Int := 0
  Target : Int := 0

/-- intent-filter child of an activity, with its action and category names
(src/parser.go lines 62-71). -/
structure IntentFilter where
  actionName : String := ""
  categoryName : String := ""

/-- application>activity element (src/parser.go lines 57-61). -/
structure Activity where
  name : String := ""
  filters : List IntentFilter := []

/-- androidManifest as decoded from the binary XML
(src/parser.go lines 72-79). -/
structure AndroidManifest where
  Package : String := ""
  VersionName : String := ""
  VersionCode : String := ""
  SDKVersion : SdkVersion := {}
  Activities : List Activity := []

/-- iosPlist as decoded by the external go-plist decoder
(src/parser.go lines 81-89). CFBundleIcons is a Go
map[string]map[string]interface\x7b\x7d; an inner value of none models a
nil inner map, which Go treats the same as a missing key. -/
structure IosPlist where
  CFBundleName : String := ""
  CFBundleDisplayName : String := ""
  CFBundleVersion : String := ""
  CFBundleShortVersion : String := ""
  CFBundleIdentifier : String := ""
  CFBundleExecutable : String := ""
  CFBundleIcons : List (String × Option (List (String × GoVal))) := []

/-- A container entry: its name, its content, and the outcome of each
external decoder on its bytes (collaborator boundary, spec section 6).
parseAndroidManifest and parseIpaFile fold entry open, read and decode
failures into one returned error, so manifestDecode and plistDecode
record that combined outcome; parseIpaIcon checks the Open() error
separately before transforming (src/parser.go lines 314-317), so openErr
records the Open() outcome and bytes the streamed content on success. -/
structure ZipEntry where
  name : String
  manifestDecode : Except GoError AndroidManifest := .error (.other "not a manifest")
  plistDecode : Except GoError IosPlist := .error (.other "not a plist")
  openErr : Option GoError := none
  bytes : List Nat := []

/-- Go map lookup over an association list. -/
def goMapLookup {α : Type} (m : List (String × α)) (k : String) : Option α :=
  match m with
  | [] => none
  | (k', v) :: t => if k' = k then some v else goMapLookup t k

/-- Indexing a Go map[string]interface value: a missing key yields the zero
value, the nil interface. -/
def goIndex (m : List (String × GoVal)) (k : String) : GoVal :=
  (goMapLookup m k).getD .nilV

/-- The three member slots filled by the classification pass
(src/parser.go line 111). -/
structure Classified where
  xmlFile : Option ZipEntry
  plistFile : Option ZipEntry
  iosIconFile : Option ZipEntry

/-- One iteration of the classification switch (src/parser.go lines
112-123): the four cases are tried in order and the matching case
overwrites its slot. -/
def classStep (c : Classified) (f : ZipEntry) : Classified :=
  if f.name = "AndroidManifest.xml" then { c with xmlFile := some f }
  else if reInfoPlistMatch f.name then { c with plistFile := some f }
  else if goContains f.name "Info.plist" then { c with plistFile := some f }
  else if goContains f.name "AppIcon60x60" then { c with iosIconFile := some f }
  else c

/-- The classification pass over the container entries in order. -/
def classify (es : List ZipEntry) : Classified :=
  es.foldl classStep ⟨none, none, none⟩

/-- Does the entry take the manifest slot when its switch case runs? -/
def qualifiesManifest (f : ZipEntry) : Bool :=
  f.name = "AndroidManifest.xml"

/-- Does the entry take the propertyList slot? Either the compiled pattern
matches or the name merely contains Info.plist (third switch case). -/
def qualifiesPlist (f : ZipEntry) : Bool :=
  !qualifiesManifest f &&
    (reInfoPlistMatch f.name || goContains f.name "Info.plist")

/-- Does the entry take the iconCandidate slot? -/
def qualifiesIcon (f : ZipEntry) : Bool :=
  !qualifiesManifest f &&
    !(reInfoPlistMatch f.name || goContains f.name "Info.plist") &&
    goContains f.name "AppIcon60x60"

/-- The last entry of the list satisfying p, if any. -/
def lastQualifying (p : ZipEntry → Bool) (es : List ZipEntry) : Option ZipEntry :=
  es.foldl (fun acc f => if p f then some f else acc) none

/-- The last entry of the list, if any. -/
def lastEntry (es : List ZipEntry) : Option ZipEntry :=
  es.foldl (fun _ f => some f) none

/-- parseAndroidManifest (src/parser.go lines 179-202): entry open, read,
binary-XML decode and xml unmarshal are all external collaborator steps,
recorded on the entry. -/
def parseAndroidManifest (f : ZipEntry) : Except GoError AndroidManifest :=
  f.manifestDecode

/-- The launcher-activity scan of parseApkFile (src/parser.go lines
225-233): the inner loop assigns the activity name at its first matching
filter and breaks the inner loop only, so a later matching activity
overwrites an earlier one. -/
def findLaunchActivity (acts : List Activity) : String :=
  acts.foldl
    (fun acc a =>
      if a.filters.any (fun fl =>
          fl.actionName = "android.intent.action.MAIN" &&
          fl.categoryName = "android.intent.category.LAUNCHER") then
        a.name
      else acc)
    ""

/-- The appInfo record built by src/parser.go (lines 32-48). Fields Go
leaves at their zero value keep the default here. -/
structure AppInfo where
  Name : String := ""
  PackageName : String := ""
  Version : String := ""
  Build : String := ""
  Base64 : String := ""
  VersionName : String := ""
  VersionCode : String := ""
  SDKMinVersion : Int := 0
  SDKTargetVersion : Int := 0
  UsesPermissions : List String := []
  Activities : List String := []
  LanchActivity : String := ""
  Icon : Option Image := none
  Size : Int := 0
  IconFileName : String := ""
  deriving DecidableEq, Repr

/-- parseApkFile (src/parser.go lines 204-235). -/
def parseApkFile (xmlFile : Option ZipEntry) : GoResult AppInfo :=
  match xmlFile with
  | none => .err .manifestNotFound
  | some f =>
    match parseAndroidManifest f with
    | .error e => .err e
    | .ok m =>
      .ok { PackageName := m.Package
            Version := m.VersionName
            Build := m.VersionCode
            SDKMinVersion := m.SDKVersion.Min
            SDKTargetVersion := m.SDKVersion.Target
            VersionCode := m.VersionCode
            VersionName := m.VersionName
            LanchActivity := findLaunchActivity m.Activities }

/-- The range loop over the CFBundleIconFiles assertion result
(src/parser.go lines 301-303): each element is asserted to a string and
assigned, so the last element wins; a non-string element panics. -/
def rangeAssignIconFiles (acc : String) : List GoVal → GoResult String
  | [] => .ok acc
  | .str s :: rest => rangeAssignIconFiles s rest
  | _ :: _ => .crash "interface conversion: interface is not string"

/-- The CFBundleIcons navigation of parseIpaFile (src/parser.go lines
300-304). The nil check guards only the inner map; the value under
CFBundleIconFiles is type-asserted to a sequence without a check, so a
missing key (nil interface) or a non-sequence value panics. -/
def iconFileNameResult
    (icons : List (String × Option (List (String × GoVal)))) : GoResult String :=
  match (goMapLookup icons "CFBundlePrimaryIcon").bind id with
  | none => .ok ""
  | some inner =>
    match goIndex inner "CFBundleIconFiles" with
    | .arr vs => rangeAssignIconFiles "" vs
    | _ => .crash "interface conversion: interface is not a sequence"

/-- parseIpaFile (src/parser.go lines 267-307); the plist byte decode into
the iosPlist record is the external go-plist collaborator. -/
def parseIpaFile (plistFile : Option ZipEntry) : GoResult AppInfo :=
  match plistFile with
  | none => .err .plistNotFound
  | some f =>
    match f.plistDecode with
    | .error e => .err e
    | .ok p =>
      match iconFileNameResult p.CFBundleIcons with
      | .crash m => .crash m
      | .err e => .err e
      | .ok iconName =>
        .ok { Name := if p.CFBundleDisplayName = "" then p.CFBundleName
                      else p.CFBundleDisplayName
              PackageName := p.CFBundleIdentifier
              Version := p.CFBundleShortVersion
              VersionCode := p.CFBundleVersion
              VersionName := p.CFBundleShortVersion
              LanchActivity := p.CFBundleExecutable
              IconFileName := iconName }

/-- parseIpaIcon (src/parser.go lines 309-324): with no entry it returns
the icon-not-found error; an entry Open() failure is returned as-is,
before any transform or decode; otherwise it runs the iospng revert
transform, DISCARDS the error returned by the transform, and hands the
output bytes to the standard png decoder, whose result it returns. -/
def parseIpaIcon (revert : List Nat → List Nat × Option GoError)
    (pngDec : List Nat → Except GoError Image)
    (iconFile : Option ZipEntry) : GoResult Image :=
  match iconFile with
  | none => .err .iconNotFound
  | some f =>
    match f.openErr with
    | some e => .err e
    | none =>
      let w := (revert f.bytes).fst
      match pngDec w with
      | .ok img => .ok img
      | .error e => .err e

/-- The icon-entry rescan of the iOS path (src/parser.go lines 155-161):
starting from the classifier candidate, every entry whose name contains
the icon file name overwrites the choice, so the last such entry wins;
an empty icon file name is contained in every name. -/
def iosIconSelection (entries : List ZipEntry) (candidate : Option ZipEntry)
    (iconFileName : String) : Option ZipEntry :=
  entries.foldl
    (fun acc f => if goContains f.name iconFileName then some f else acc)
    candidate

/-- The apostrophe character, written by code point to build the aapt
separator strings. -/
def quoteChar : Char := Char.ofNat 39

/-- A one-character string holding the apostrophe. -/
def quoteStr : String := String.mk [quoteChar]

/-- The separator label= followed by an apostrophe, as hard-coded in
src/parser.go line 256. -/
def labelMarker : String := "label=" ++ quoteStr

/-- Scanner for goSplit: walks the character list; a pending skip count
consumes the characters of a just-matched separator, otherwise a
separator match emits the accumulated slice and all other characters
accumulate. Matches are non-overlapping and leftmost, as in Go. -/
def goSplitAux (sep : List Char) : List Char → Nat → List Char → List (List Char)
  | [], _, acc => [acc.reverse]
  | _ :: t, Nat.succ k, acc => goSplitAux sep t k acc
  | c :: t, 0, acc =>
    if sep.isPrefixOf (c :: t) then
      acc.reverse :: goSplitAux sep t (sep.length - 1) []
    else goSplitAux sep t 0 (c :: acc)

/-- Go strings.Split(s, sep): the slices of s around all non-overlapping
occurrences of sep; it always returns at least one element for a
nonempty separator, and splits into single characters when sep is
empty. -/
def goSplit (s sep : String) : List String :=
  match sep.toList with
  | [] => s.toList.map (fun c => String.mk [c])
  | _ :: _ => (goSplitAux sep.toList s.toList 0 []).map String.mk

/-- Go strings.Replace(s, c, "", -1) for a one-character pattern: remove
every occurrence of the character. -/
def goRemoveAll (s : String) (c : Char) : String :=
  String.mk (s.toList.filter (fun x => x ≠ c))

/-- The aapt badging text extraction inside parseApkIconAndLabel
(src/parser.go lines 251-262). Go strings.Split always returns at least
one element, so the len(data) > 0 and len(temp) > 0 guards are always
true, and the [1] indexing panics (index out of range) whenever the
separator did not occur; when the aapt output is empty the label from
the resource table is kept. -/
def aaptLabelExtract (label0 : String) (resp : String) : GoResult String :=
  if resp.length > 0 then
    let data := goSplit resp "launchable-activity"
    match data.get? 1 with
    | none => .crash "runtime error: index out of range"
    | some d1 =>
      let temp := goSplit d1 labelMarker
      match temp.get? 1 with
      | none => .crash "runtime error: index out of range"
      | some t1 =>
        let temp1 := goSplit t1 quoteStr
        .ok (goRemoveAll (temp1.headD "") quoteChar)
  else .ok label0

/-- Outcome of the external collaborators consulted by
parseApkIconAndLabel (src/parser.go lines 237-265) on one archive: the
apk.OpenFile result, the density-720 icon resolution (its error is
ignored, the nil icon is checked), the resource-table label (its error
is ignored) and the raw text printed by the optional aapt badging tool
(empty when the tool is absent or fails, since its error is ignored and
a failed run yields no output). -/
structure ApkPackage where
  openErr : Option GoError := none
  icon : Option Image := none
  label : String := ""
  aaptOutput : String := ""

/-- The inspection input: the path given to NewAppParser, the file size
from stat, the outcome of zip.NewReader over the file, and the recorded
collaborator outcomes used by parseApkIconAndLabel. -/
structure ArchiveFile where
  path : String
  size : Int
  zipOpen : Except GoError (List ZipEntry)
  apkPackage : ApkPackage

/-- parseApkIconAndLabel (src/parser.go lines 237-265): fails when the
package cannot be opened or no icon resource resolves; otherwise the
resource-table label may be overridden from the aapt badging text, whose
repo-owned extraction (lines 251-262) can panic on the [1] indexing, as
modelled by aaptLabelExtract. On an error return the Go function gives
an empty label alongside the error. -/
def parseApkIconAndLabel (pkg : ApkPackage) : GoResult (Image × String) :=
  match pkg.openErr with
  | some e => .err e
  | none =>
    match pkg.icon with
    | none => .err .iconNotFound
    | some icon =>
      match aaptLabelExtract pkg.label pkg.aaptOutput with
      | .crash m => .crash m
      | .err e => .err e
      | .ok label => .ok (icon, label)

/-- NewAppParser (src/parser.go lines 91-177). Salient source behavior
kept by the model:
* zip.NewReader runs, and the classification loop runs over all entries,
  BEFORE the extension test;
* on the .apk path parseApkIconAndLabel always runs (a panic inside its
  label extraction propagates first), its error overwrites the error of
  parseApkFile, and the possibly nil record is then dereferenced
  (info.Name = label), which panics when parseApkFile failed;
* an icon/label error return on the .apk path is reset to nil and the
  record is returned; the encoded icon is stored base64 when present;
* on the .ipa/.zip path a parseIpaFile error returns immediately; then the
  rescan loop re-picks the icon entry; a parseIpaIcon error is only
  printed and the record is returned without icon;
* any other extension returns the unknown-platform error. -/
def NewAppParser (b64 : Image → String)
    (pngDec : List Nat → Except GoError Image)
    (revert : List Nat → List Nat × Option GoError)
    (file : ArchiveFile) : GoResult AppInfo :=
  match file.zipOpen with
  | .error e => .err e
  | .ok entries =>
    let c := classify entries
    let ext := goExt file.path
    if ext = ".apk" then
      match parseApkFile c.xmlFile, parseApkIconAndLabel file.apkPackage with
      | _, .crash m => .crash m
      | .crash m, _ => .crash m
      | .err _, _ =>
        .crash "runtime error: invalid memory address or nil pointer dereference"
      | .ok info, .err _ => .ok { info with Name := "", Size := file.size }
      | .ok info, .ok (icon, label) =>
        .ok { info with Name := label, Size := file.size, Base64 := b64 icon }
    else if ext = ".ipa" ∨ ext = ".zip" then
      match parseIpaFile c.plistFile with
      | .crash m => .crash m
      | .err e => .err e
      | .ok info =>
        match parseIpaIcon revert pngDec
            (iosIconSelection entries c.iosIconFile info.IconFileName) with
        | .crash m => .crash m
        | .err _ => .ok info
        | .ok icon =>
          .ok { info with Icon := some icon, Base64 := b64 icon, Size := file.size }
    else .err .unknownPlatform

/-- The AppInfo record of the second source variant
(src/unnamed/part_000 lines 28-34). -/
structure AppInfoLegacy where
  Name : String := ""
  BundleId : String := ""
  Version : String := ""
  Build : String := ""
  Icon : List Nat := []
  deriving DecidableEq, Repr

/-- parseIpaFile of the second source variant (src/unnamed/part_000 lines
161-190): same plist keys, but the Build field IS assigned from
CFBundleVersion and the display name is taken without fallback. -/
def parseIpaFileLegacy (plistFile : Option ZipEntry) : Except GoError AppInfoLegacy :=
  match plistFile with
  | none => .error .plistNotFound
  | some f =>
    match f.plistDecode with
    | .error e => .error e
    | .ok p =>
      .ok { Name := p.CFBundleDisplayName
            BundleId := p.CFBundleIdentifier
            Version := p.CFBundleShortVersion
            Build := p.CFBundleVersion }

/-- Embed an Except value into GoResult (no panic case). -/
def goResultOfExcept {α : Type} : Except GoError α → GoResult α
  | .ok a => .ok a
  | .error e => .err e

theorem classStep_xml (c : Classified) (f : ZipEntry) :
    (classStep c f).xmlFile = if qualifiesManifest f then some f else c.xmlFile := by
  by_cases h1 : f.name = "AndroidManifest.xml"
  · simp [classStep, qualifiesManifest, h1]
  · cases h2 : reInfoPlistMatch f.name
    · cases h3 : goContains f.name "Info.plist"
      · cases h4 : goContains f.name "AppIcon60x60" <;>
          simp [classStep, qualifiesManifest, h1, h2, h3, h4]
      · simp [classStep, qualifiesManifest, h1, h2, h3]
    · simp [classStep, qualifiesManifest, h1, h2]

theorem classStep_plist (c : Classified) (f : ZipEntry) :
    (classStep c f).plistFile = if qualifiesPlist f then some f else c.plistFile := by
  by_cases h1 : f.name = "AndroidManifest.xml"
  · simp [classStep, qualifiesPlist, qualifiesManifest, h1]
  · cases h2 : reInfoPlistMatch f.name
    · cases h3 : goContains f.name "Info.plist"
      · cases h4 : goContains f.name "AppIcon60x60" <;>
          simp [classStep, qualifiesPlist, qualifiesManifest, h1, h2, h3, h4]
      · simp [classStep, qualifiesPlist, qualifiesManifest, h1, h2, h3]
    · simp [classStep, qualifiesPlist, qualifiesManifest, h1, h2]

theorem classStep_icon (c : Classified) (f : ZipEntry) :
    (classStep c f).iosIconFile = if qualifiesIcon f then some f else c.iosIconFile := by
  by_cases h1 : f.name = "AndroidManifest.xml"
  · simp [classStep, qualifiesIcon, qualifiesManifest, h1]
  · cases h2 : reInfoPlistMatch f.name
    · cases h3 : goContains f.name "Info.plist"
      · cases h4 : goContains f.name "AppIcon60x60" <;>
          simp [classStep, qualifiesIcon, qualifiesManifest, h1, h2, h3, h4]
      · simp [classStep, qualifiesIcon, qualifiesManifest, h1, h2, h3]
    · simp [classStep, qualifiesIcon, qualifiesManifest, h1, h2]

theorem classify_foldl_split (es : List ZipEntry) : ∀ c : Classified,
    es.foldl classStep c =
      ⟨es.foldl (fun a f => if qualifiesManifest f then some f else a) c.xmlFile,
       es.foldl (fun a f => if qualifiesPlist f then some f else a) c.plistFile,
       es.foldl (fun a f => if qualifiesIcon f then some f else a) c.iosIconFile⟩ := by
  induction es with
  | nil => intro c; rfl
  | cons e t ih =>
    intro c
    rw [List.foldl_cons, ih (classStep c e), classStep_xml, classStep_plist,
      classStep_icon]
    rfl

theorem listIsInfixOf_nil (l : List Char) : listIsInfixOf [] l = true := by
  cases l <;> rfl

theorem goContains_empty (s : String) : goContains s "" = true :=
  listIsInfixOf_nil s.toList

theorem or_some_absorb (x : Option ZipEntry) (e : ZipEntry) (a : Option ZipEntry) :
    (x.or (some e)).or a = x.or (some e) := by
  cases x <;> rfl

theorem foldl_some_or (t : List ZipEntry) : ∀ a : Option ZipEntry,
    t.foldl (fun _ f => some f) a = (t.foldl (fun _ f => some f) none).or a := by
  induction t with
  | nil => intro a; rfl
  | cons e t ih =>
    intro a
    simp only [List.foldl_cons]
    rw [ih (some e)]
    exact (or_some_absorb _ _ _).symm

theorem iosIconSelection_empty_name (entries : List ZipEntry)
    (candidate : Option ZipEntry) :
    iosIconSelection entries candidate "" = (lastEntry entries).or candidate := by
  have hstep : (fun (acc : Option ZipEntry) (f : ZipEntry) =>
      if goContains f.name "" then some f else acc) = fun _ f => some f := by
    funext acc f
    simp [goContains_empty]
  rw [iosIconSelection, hstep, lastEntry]
  exact foldl_some_or entries candidate

theorem rangeAssign_strings (l : List String) : ∀ acc : String,
    rangeAssignIconFiles acc (l.map .str) = .ok (l.foldl (fun _ s => s) acc) := by
  induction l with
  | nil => intro acc; rfl
  | cons s t ih =>
    intro acc
    rw [List.map_cons, List.foldl_cons]
    exact ih s

/-- Claim C2, counterexample: two container entries qualify for the
propertyList slot (and, in the second list, two for the iconCandidate
slot), and in both cases the classification keeps the SECOND entry, not
the first as the claim states. -/
theorem C2_first_wins_counterexample :
    ((classify [{ name := "Payload/A.app/Info.plist" },
        { name := "Payload/B.app/Info.plist" }]).plistFile).map (fun f => f.name)
      = some "Payload/B.app/Info.plist"
    ∧ ((classify [{ name := "xAppIcon60x60a.png" },
        { name := "yAppIcon60x60b.png" }]).iosIconFile).map (fun f => f.name)
      = some "yAppIcon60x60b.png" := by decide

/-- Claim C2 as amended: the classification pass keeps the LAST qualifying
entry of the container order for each of the three slots (each qualifying
entry overwrites the slot), rather than the first. -/
theorem C2_classify_keeps_last_qualifying (es : List ZipEntry) :
    classify es = ⟨lastQualifying qualifiesManifest es,
                   lastQualifying qualifiesPlist es,
                   lastQualifying qualifiesIcon es⟩ :=
  classify_foldl_split es ⟨none, none, none⟩

/-- Claim C7, counterexample: an entry at the container root named exactly
Info.plist does not match the Payload pattern, yet it populates the
propertyList slot (through the plain substring case of the switch); a
deeper-nested Info.plist entry populates it too. -/
theorem C7_substring_counterexample :
    reInfoPlistMatch "Info.plist" = false
    ∧ ((classify [{ name := "Info.plist" }]).plistFile).map (fun f => f.name)
      = some "Info.plist"
    ∧ reInfoPlistMatch "Payload/a/b/Info.plist" = false
    ∧ ((classify [{ name := "Payload/a/b/Info.plist" }]).plistFile).map
        (fun f => f.name) = some "Payload/a/b/Info.plist" := by decide

/-- Claim C7 as amended: the propertyList slot is populated by an entry
exactly when its name is not AndroidManifest.xml and either matches the
pattern Payload/(single segment)/Info.plist or merely CONTAINS the
substring Info.plist anywhere (root-level or deeper-nested entries
qualify through the substring case). The first conjunct characterizes a
single-entry container; the second states, for every container listing,
that the slot holds exactly the last entry satisfying that condition
(and stays empty when no entry satisfies it). -/
theorem C7_plist_slot_characterization :
    (∀ f : ZipEntry,
        (classify [f]).plistFile = if qualifiesPlist f then some f else none)
    ∧ (∀ es : List ZipEntry,
        (classify es).plistFile = lastQualifying qualifiesPlist es) :=
  ⟨fun f => classStep_plist ⟨none, none, none⟩ f,
   fun es => congrArg Classified.plistFile (classify_foldl_split es ⟨none, none, none⟩)⟩

/-- Claim C1: on the .apk path, parseApkFile does build the mandatory
failure (manifest-not-found here, and a binary-XML decode failure in the
second scenario), but NewAppParser overwrites that error with the result
of parseApkIconAndLabel and then dereferences the nil record, so the call
panics instead of surfacing the failure to the caller. -/
theorem C1_manifest_failure_panics_not_surfaced :
    parseApkFile (classify [{ name := "foo.txt" }]).xmlFile = .err .manifestNotFound
    ∧ NewAppParser (fun _ => "") (fun _ => .error (.other "png")) (fun bs => (bs, none))
        { path := "a.apk", size := 7, zipOpen := .ok [{ name := "foo.txt" }],
          apkPackage := { icon := some ⟨[1]⟩, label := "HelloWorld" } }
      = .crash "runtime error: invalid memory address or nil pointer dereference"
    ∧ parseApkFile (classify
        [{ name := "AndroidManifest.xml",
           manifestDecode := .error (.decodeFail "bad binary xml") }]).xmlFile
      = .err (.decodeFail "bad binary xml")
    ∧ NewAppParser (fun _ => "") (fun _ => .error (.other "png")) (fun bs => (bs, none))
        { path := "b.apk", size := 7,
          zipOpen := .ok
            [{ name := "AndroidManifest.xml",
               manifestDecode := .error (.decodeFail "bad binary xml") }],
          apkPackage := { icon := some ⟨[1]⟩, label := "HelloWorld" } }
      = .crash "runtime error: invalid memory address or nil pointer dereference" := by
  decide

/-- Claim C3, counterexample: a .docx input whose bytes are not a valid
zip structure fails with the container-open error, not with
UnknownPlatform as the claim states, because zip.NewReader runs before
the extension check. -/
theorem C3_zip_open_counterexample :
    NewAppParser (fun _ => "") (fun _ => .error (.other "png")) (fun bs => (bs, none))
      { path := "a.docx", size := 3, zipOpen := .error .zipOpenError,
        apkPackage := {} }
      = .err .zipOpenError
    ∧ GoError.zipOpenError ≠ GoError.unknownPlatform := by decide

/-- Claim C3 as amended: when the container fails to open as a zip, that
open error surfaces (the extension is never examined); when the container
opens, an extension other than .apk, .ipa and .zip yields UnknownPlatform
and the result does not depend on the container entries (no metadata
decode is attempted), although the code does enumerate and classify the
entries before the extension check. -/
theorem C3_unknown_extension_amended :
    (∀ (b64 : Image → String) (pngDec : List Nat → Except GoError Image)
        (revert : List Nat → List Nat × Option GoError)
        (path : String) (size : Int) (e : GoError) (pkg : ApkPackage),
        NewAppParser b64 pngDec revert ⟨path, size, .error e, pkg⟩ = .err e)
    ∧ (∀ (b64 : Image → String) (pngDec : List Nat → Except GoError Image)
        (revert : List Nat → List Nat × Option GoError)
        (path : String) (size : Int) (entries : List ZipEntry)
        (pkg : ApkPackage),
        goExt path ≠ ".apk" → goExt path ≠ ".ipa" → goExt path ≠ ".zip" →
        NewAppParser b64 pngDec revert ⟨path, size, .ok entries, pkg⟩
          = .err .unknownPlatform) := by
  constructor
  · intro b64 pngDec revert path size e ail
    rfl
  · intro b64 pngDec revert path size entries ail h1 h2 h3
    simp only [NewAppParser]
    rw [if_neg h1, if_neg (by
      rintro (h | h)
      · exact h2 h
      · exact h3 h)]

/-- Witness for C3_unknown_extension_amended: a .docx archive whose
container holds both a manifest entry and a plist entry still yields
UnknownPlatform. -/
theorem C3_unknown_extension_witness :
    NewAppParser (fun _ => "") (fun _ => .error (.other "png")) (fun bs => (bs, none))
      ⟨"b.docx", 4, .ok [{ name := "AndroidManifest.xml" },
        { name := "Payload/App.app/Info.plist" }], {}⟩
      = .err .unknownPlatform :=
  C3_unknown_extension_amended.2 _ _ _ "b.docx" 4 _ _
    (by decide) (by decide) (by decide)

/-- Claim C4, counterexample: with CFBundleIconFiles = [A, B] the
extracted icon file name is B (the last string), not A (the first); and
when CFBundleIcons is absent the icon entry actually used is the LAST
container entry (bytes [3] of zzz.png), not the chosen classifier
AppIcon60x60 candidate (bytes [2]), because every name contains the empty
icon file name. -/
theorem C4_last_string_counterexample :
    parseIpaFile (some
      { name := "Payload/App.app/Info.plist",
        plistDecode := .ok { CFBundleIcons :=
          [("CFBundlePrimaryIcon",
            some [("CFBundleIconFiles", GoVal.arr [.str "A", .str "B"])])] } })
      = .ok { IconFileName := "B" }
    ∧ ("B" : String) ≠ "A"
    ∧ NewAppParser (fun _ => "") (fun bs => .ok ⟨bs⟩) (fun bs => (bs, none))
        { path := "a.ipa", size := 5,
          zipOpen := .ok [{ name := "Payload/App.app/Info.plist", plistDecode := .ok {} },
                          { name := "AppIcon60x60@2x.png", bytes := [2] },
                          { name := "zzz.png", bytes := [3] }],
          apkPackage := {} }
      = .ok { Icon := some ⟨[3]⟩, Size := 5 }
    ∧ (⟨[3]⟩ : Image) ≠ ⟨[2]⟩ := by decide

/-- Claim C4 as amended: when the nested
CFBundleIcons.CFBundlePrimaryIcon.CFBundleIconFiles structure is present
and is a list of strings, the extracted icon file name is the LAST string
of the list; when the nested structure is absent this is not an error and
the icon file name is empty, but the dispatcher then re-scans the
container with an empty substring, which every name contains, so the
entry used for icon extraction is the LAST container entry (the
classifier-chosen AppIcon60x60 candidate survives only for an empty
container). -/
theorem C4_icon_file_name_amended :
    (∀ (f : ZipEntry) (p : IosPlist) (inner : List (String × GoVal)) (l : List String),
        f.plistDecode = .ok p →
        (goMapLookup p.CFBundleIcons "CFBundlePrimaryIcon").bind id = some inner →
        goIndex inner "CFBundleIconFiles" = .arr (l.map .str) →
        ∃ info, parseIpaFile (some f) = .ok info
          ∧ info.IconFileName = l.foldl (fun _ s => s) "")
    ∧ (∀ (f : ZipEntry) (p : IosPlist),
        f.plistDecode = .ok p →
        (goMapLookup p.CFBundleIcons "CFBundlePrimaryIcon").bind id = none →
        ∃ info, parseIpaFile (some f) = .ok info ∧ info.IconFileName = "")
    ∧ (∀ (entries : List ZipEntry) (candidate : Option ZipEntry),
        iosIconSelection entries candidate "" = (lastEntry entries).or candidate) := by
  refine ⟨?_, ?_, iosIconSelection_empty_name⟩
  · intro f p inner l hdec hlook hidx
    have hicon : iconFileNameResult p.CFBundleIcons
        = .ok (l.foldl (fun _ s => s) "") := by
      simp only [iconFileNameResult, hlook, hidx]
      exact rangeAssign_strings l ""
    have hmain : parseIpaFile (some f)
        = .ok { Name := if p.CFBundleDisplayName = "" then p.CFBundleName
                        else p.CFBundleDisplayName,
                PackageName := p.CFBundleIdentifier,
                Version := p.CFBundleShortVersion,
                VersionCode := p.CFBundleVersion,
                VersionName := p.CFBundleShortVersion,
                LanchActivity := p.CFBundleExecutable,
                IconFileName := l.foldl (fun _ s => s) "" } := by
      simp only [parseIpaFile, hdec, hicon]
    exact ⟨_, hmain, rfl⟩
  · intro f p hdec hlook
    have hicon : iconFileNameResult p.CFBundleIcons = .ok "" := by
      simp only [iconFileNameResult, hlook]
    have hmain : parseIpaFile (some f)
        = .ok { Name := if p.CFBundleDisplayName = "" then p.CFBundleName
                        else p.CFBundleDisplayName,
                PackageName := p.CFBundleIdentifier,
                Version := p.CFBundleShortVersion,
                VersionCode := p.CFBundleVersion,
                VersionName := p.CFBundleShortVersion,
                LanchActivity := p.CFBundleExecutable,
                IconFileName := "" } := by
      simp only [parseIpaFile, hdec, hicon]
    exact ⟨_, hmain, rfl⟩

/-- Witness for C4_icon_file_name_amended: concrete instances of its
three parts. -/
theorem C4_icon_file_name_witness :
    (∃ info, parseIpaFile (some
        { name := "Payload/App.app/Info.plist",
          plistDecode := .ok { CFBundleIcons :=
            [("CFBundlePrimaryIcon",
              some [("CFBundleIconFiles", GoVal.arr [.str "A", .str "B"])])] } })
      = .ok info ∧ info.IconFileName = ["A", "B"].foldl (fun _ s => s) "")
    ∧ (∃ info, parseIpaFile (some
        { name := "Payload/Other.app/Info.plist",
          plistDecode := .ok { CFBundleIdentifier := "com.example" } })
      = .ok info ∧ info.IconFileName = "")
    ∧ iosIconSelection [{ name := "AppIcon60x60@2x.png" }, { name := "last.png" }]
        (some { name := "AppIcon60x60@2x.png" }) ""
      = (lastEntry [{ name := "AppIcon60x60@2x.png" }, { name := "last.png" }]).or
          (some { name := "AppIcon60x60@2x.png" }) :=
  ⟨C4_icon_file_name_amended.1 _ _
      [("CFBundleIconFiles", GoVal.arr [.str "A", .str "B"])] ["A", "B"] rfl rfl rfl,
   C4_icon_file_name_amended.2.1 _ _ rfl rfl,
   C4_icon_file_name_amended.2.2 _ _⟩

/-- Claim C5: on the concrete spec iOS scenario, name, bundle
identifier and version come out as claimed, but parseIpaFile of
src/parser.go never assigns the Build field (it stays empty; the
CFBundleVersion value is stored only in VersionCode), while the
parseIpaFile of the second source variant, like the repository test
TestParseIpaFile, does set Build = CFBundleVersion. -/
theorem C5_build_left_empty :
    parseIpaFile (some
      { name := "Payload/App.app/Info.plist",
        plistDecode := .ok
          { CFBundleName := "HelloWorld",
            CFBundleIdentifier := "com.kthcorp.helloworld",
            CFBundleShortVersion := "1.0", CFBundleVersion := "1.0" } })
      = .ok { Name := "HelloWorld", PackageName := "com.kthcorp.helloworld",
              Version := "1.0", Build := "", VersionName := "1.0",
              VersionCode := "1.0", IconFileName := "" }
    ∧ parseIpaFileLegacy (some
      { name := "Payload/App.app/Info.plist",
        plistDecode := .ok
          { CFBundleName := "HelloWorld",
            CFBundleIdentifier := "com.kthcorp.helloworld",
            CFBundleShortVersion := "1.0", CFBundleVersion := "1.0" } })
      = .ok { Name := "", BundleId := "com.kthcorp.helloworld",
              Version := "1.0", Build := "1.0" } :=
  ⟨by decide, rfl⟩

/-- Claim C6: the claim fails on the code. The aapt badging extraction
inside parseApkIconAndLabel (src/parser.go lines 251-262) indexes [1]
behind guards that are always true, so when the aapt output is nonempty
but lacks a launchable-activity section (first conjunct) or lacks the
label= quote marker after it (second conjunct), label resolution panics
and aborts the whole .apk inspection even though manifest, icon and
resource label all resolved. Error-RETURNING icon/label failures, by
contrast, are recovered on both platform paths: the third conjunct
returns the record with an empty label and no icon when no icon resource
resolves, and the fourth returns the record unchanged when the iOS icon
decode fails. -/
theorem C6_label_extraction_panic_aborts :
    NewAppParser (fun _ => "") (fun _ => .error (.other "png")) (fun bs => (bs, none))
      { path := "hello.apk", size := 7,
        zipOpen := .ok
          [{ name := "AndroidManifest.xml",
             manifestDecode := .ok
               { Package := "com.example.helloworld",
                 VersionName := "1.0", VersionCode := "1" } }],
        apkPackage := { icon := some ⟨[1]⟩, label := "HelloWorld",
                        aaptOutput := "package: name=com.example" } }
      = .crash "runtime error: index out of range"
    ∧ NewAppParser (fun _ => "") (fun _ => .error (.other "png")) (fun bs => (bs, none))
      { path := "hello.apk", size := 7,
        zipOpen := .ok
          [{ name := "AndroidManifest.xml",
             manifestDecode := .ok
               { Package := "com.example.helloworld",
                 VersionName := "1.0", VersionCode := "1" } }],
        apkPackage := { icon := some ⟨[1]⟩, label := "HelloWorld",
                        aaptOutput := "launchable-activity: name=Main" } }
      = .crash "runtime error: index out of range"
    ∧ NewAppParser (fun _ => "") (fun _ => .error (.other "png")) (fun bs => (bs, none))
      { path := "hello.apk", size := 7,
        zipOpen := .ok
          [{ name := "AndroidManifest.xml",
             manifestDecode := .ok
               { Package := "com.example.helloworld",
                 VersionName := "1.0", VersionCode := "1" } }],
        apkPackage := {} }
      = .ok { Name := "", PackageName := "com.example.helloworld", Version := "1.0",
              Build := "1", VersionCode := "1", VersionName := "1.0", Size := 7 }
    ∧ NewAppParser (fun _ => "") (fun _ => .error (.decodeFail "not a png"))
        (fun bs => (bs, none))
      { path := "hello.ipa", size := 9,
        zipOpen := .ok
          [{ name := "Payload/App.app/Info.plist",
             plistDecode := .ok
               { CFBundleIdentifier := "com.kthcorp.helloworld",
                 CFBundleShortVersion := "1.0", CFBundleVersion := "2" } }],
        apkPackage := {} }
      = .ok { Name := "", PackageName := "com.kthcorp.helloworld", Version := "1.0",
              VersionCode := "2", VersionName := "1.0" } := by decide

/-- Claim C8: when CFBundlePrimaryIcon is present but CFBundleIconFiles
is absent, is not a sequence, or holds a non-string element, parseIpaFile
does crash (failed interface type assertion), instead of mapping the
navigation failure to an empty icon file name as the spec requires. -/
theorem C8_icons_navigation_panics :
    parseIpaFile (some
      { name := "Payload/App.app/Info.plist",
        plistDecode := .ok { CFBundleIcons := [("CFBundlePrimaryIcon", some [])] } })
      = .crash "interface conversion: interface is not a sequence"
    ∧ parseIpaFile (some
      { name := "Payload/App.app/Info.plist",
        plistDecode := .ok { CFBundleIcons :=
          [("CFBundlePrimaryIcon", some [("CFBundleIconFiles", GoVal.int 3)])] } })
      = .crash "interface conversion: interface is not a sequence"
    ∧ parseIpaFile (some
      { name := "Payload/App.app/Info.plist",
        plistDecode := .ok { CFBundleIcons :=
          [("CFBundlePrimaryIcon",
            some [("CFBundleIconFiles", GoVal.arr [.int 1])])] } })
      = .crash "interface conversion: interface is not string" := by decide

/-- Claim C9: called with no candidate entry, the icon de-optimization
step returns the icon-not-found error; the result is the same for every
revert transform and every png decoder, so no decode is ever attempted. -/
theorem C9_no_entry_icon_not_found
    (revert : List Nat → List Nat × Option GoError)
    (pngDec : List Nat → Except GoError Image) :
    parseIpaIcon revert pngDec none = .err .iconNotFound := rfl

/-- Claim C10, counterexample: an icon entry whose Open() fails returns
the open error with no decode, even though the png decode of the revert
output of its bytes would succeed, so the outcome is not determined
solely by the png decode of the revert output. -/
theorem C10_open_error_counterexample :
    parseIpaIcon (fun bs => (bs, none)) (fun bs => .ok ⟨bs⟩)
        (some { name := "icon.png",
                openErr := some (.other "zip: unsupported compression"),
                bytes := [9] })
      = .err (.other "zip: unsupported compression")
    ∧ goResultOfExcept ((fun bs => (.ok ⟨bs⟩ : Except GoError Image))
        ((fun bs => (bs, (none : Option GoError))) [9]).fst) = .ok ⟨[9]⟩
    ∧ GoResult.err (α := Image) (.other "zip: unsupported compression")
        ≠ .ok ⟨[9]⟩ := by decide

/-- Claim C10 as amended: for a non-nil icon entry whose Open() succeeds,
the outcome of parseIpaIcon is exactly the png decode of the output
bytes of the revert transform, and the error component of the revert
transform is discarded, so two transforms that agree on output bytes
give identical results whatever their errors; when the Open() fails,
the open error is returned and no transform or decode output matters. -/
theorem C10_revert_error_discarded :
    (∀ (r1 r2 : List Nat → List Nat × Option GoError)
        (pngDec : List Nat → Except GoError Image) (f : ZipEntry),
        f.openErr = none →
        (∀ bs, (r1 bs).fst = (r2 bs).fst) →
        parseIpaIcon r1 pngDec (some f) = parseIpaIcon r2 pngDec (some f)
        ∧ parseIpaIcon r1 pngDec (some f)
          = goResultOfExcept (pngDec (r1 f.bytes).fst))
    ∧ (∀ (r : List Nat → List Nat × Option GoError)
        (pngDec : List Nat → Except GoError Image) (f : ZipEntry) (e : GoError),
        f.openErr = some e →
        parseIpaIcon r pngDec (some f) = .err e) := by
  constructor
  · intro r1 r2 pngDec f hopen h
    constructor
    · simp only [parseIpaIcon, hopen, h f.bytes]
    · simp only [parseIpaIcon, hopen, goResultOfExcept]
      cases pngDec (r1 f.bytes).fst <;> rfl
  · intro r pngDec f e hopen
    simp only [parseIpaIcon, hopen]

/-- Witness for C10_revert_error_discarded: a revert transform that
reports an error gives the same successful decode as one that does not
on an entry that opens, and an entry whose open fails returns the open
error. -/
theorem C10_revert_error_witness :
    (parseIpaIcon (fun bs => (bs, some (.other "revert failed"))) (fun bs => .ok ⟨bs⟩)
        (some { name := "icon.png", bytes := [9] })
      = parseIpaIcon (fun bs => (bs, none)) (fun bs => .ok ⟨bs⟩)
        (some { name := "icon.png", bytes := [9] })
    ∧ parseIpaIcon (fun bs => (bs, some (.other "revert failed"))) (fun bs => .ok ⟨bs⟩)
        (some { name := "icon.png", bytes := [9] })
      = goResultOfExcept
          ((fun bs => (.ok ⟨bs⟩ : Except GoError Image))
            ((fun bs => (bs, some (GoError.other "revert failed"))) [9]).fst))
    ∧ parseIpaIcon (fun bs => (bs, none)) (fun bs => .ok ⟨bs⟩)
        (some { name := "bad.png", openErr := some (.other "open failed") })
      = .err (.other "open failed") :=
  ⟨C10_revert_error_discarded.1 _ _ _ _ rfl (fun _ => rfl),
   C10_revert_error_discarded.2 _ _ _ _ rfl⟩

end Ipapk
